import Mathlib

/-!
Verification of the TerraSim phase solver core (T6 elements, Mohr-Coulomb
plasticity, K0 initialization) against its specification.

The Python source is shallowly embedded over `ℚ`: floating-point arithmetic
is modelled by exact rational arithmetic.  Where the source computes a
transcendental quantity (a square root of a sum of squares, the sine or
cosine of a friction angle, the length of a mesh edge), the embedded
function takes that quantity as an explicit argument, characterized by a
hypothesis (see `IsRadius`) or constrained in the theorem; everything else
is translated directly from the source.
-/

set_option maxHeartbeats 1000000

namespace TerraSim

/-! ## Basic enumerations (backend/models.py) -/

inductive DrainageType
  | drained
  | undrainedA
  | undrainedB
  | undrainedC
  | nonPorous
deriving DecidableEq, Repr

inductive MaterialModel
  | linearElastic
  | mohrCoulomb
deriving DecidableEq, Repr

inductive PhaseType
  | plastic
  | k0Procedure
  | gravityLoading
  | flow
  | safetyAnalysis
deriving DecidableEq, Repr

/-- Integer drainage code used by the numba kernels
(0: Drained, 1: UndrainedA, 2: UndrainedB, 3: UndrainedC, 4: NonPorous). -/
def drainage_code : DrainageType → ℕ
  | .drained => 0
  | .undrainedA => 1
  | .undrainedB => 2
  | .undrainedC => 3
  | .nonPorous => 4

/-- Unit weight of water, 9.81 kN per cubic metre. -/
def gamma_w : ℚ := 9.81

/-- Python `x or d` applied to an optional number: both `None` and `0` are
falsy and fall back to the default. -/
def pyOrQ (o : Option ℚ) (d : ℚ) : ℚ :=
  match o with
  | none => d
  | some v => if v = 0 then d else v

/-- Python `x or d` applied to an optional integer: both `None` and `0` are
falsy and fall back to the default. -/
def pyOrZ (o : Option ℤ) (d : ℤ) : ℤ :=
  match o with
  | none => d
  | some v => if v = 0 then d else v

/-! ## Steady pore pressure at a Gauss point

From `compute_element_matrices_t6` (backend/solver/element_t6.py, the PWP
block) and `compute_k0_stresses_kernel` (backend/solver/k0_procedure.py,
step 1).  `water_y` is the water-table elevation interpolated at the Gauss
point x, `none` when no water table is defined; the kernel variant uses the
numeric sentinel -1e15 instead of `None`. -/

def pwp_at_gp (dt : DrainageType) (water_y : Option ℚ) (y_gp : ℚ) : ℚ :=
  if dt = .nonPorous ∨ dt = .undrainedC then 0
  else
    match water_y with
    | some wy => if y_gp < wy then -gamma_w * (wy - y_gp) else 0
    | none => 0

def pwp_k0_kernel (dtype : ℕ) (water_y y_gp : ℚ) : ℚ :=
  if dtype ≠ 3 ∧ dtype ≠ 4 then
    (if water_y > -1e14 ∧ y_gp < water_y then -gamma_w * (water_y - y_gp) else 0)
  else 0

/-! ## Stress results emitted by solve_phases (backend/solver/phase_solver.py) -/

structure StressResult where
  element_id : ℕ
  gp_id : ℕ
  sig_xx : ℚ
  sig_yy : ℚ
  sig_xy : ℚ
  sig_zz : ℚ
  pwp_steady : ℚ
  pwp_excess : ℚ
  pwp_total : ℚ
  is_yielded : Bool
  m_stage : ℚ
deriving DecidableEq, Repr

structure NodeResult where
  id : ℕ
  ux : ℚ
  uy : ℚ
deriving DecidableEq, Repr

/-- Derived out-of-plane stress used in the Plastic/Safety result gathering
(phase_solver.py, end-of-phase loop). -/
def sig_zz_derived (dt : DrainageType) (nu sig_xx_total sig_yy_total pwp_total : ℚ) : ℚ :=
  if dt = .nonPorous ∨ dt = .undrainedC then nu * (sig_xx_total + sig_yy_total)
  else nu * (sig_xx_total + sig_yy_total - 2 * pwp_total) + pwp_total

/-- StressResult built by the Plastic/Safety end-of-phase result gathering. -/
def plastic_stress_result (eid gp : ℕ) (dt : DrainageType) (nu : ℚ)
    (sig : ℚ × ℚ × ℚ) (pwp_static pwp_excess : ℚ) (yld : Bool) (m : ℚ) : StressResult :=
  let pwp_total := pwp_static + pwp_excess
  { element_id := eid, gp_id := gp,
    sig_xx := sig.1, sig_yy := sig.2.1, sig_xy := sig.2.2,
    sig_zz := sig_zz_derived dt nu sig.1 sig.2.1 pwp_total,
    pwp_steady := pwp_static, pwp_excess := pwp_excess, pwp_total := pwp_total,
    is_yielded := yld, m_stage := m }

/-- StressResult built by the K0-phase branch of solve_phases: it reports
`sig_zz = sig[0]`, the horizontal stress, and pwp_total = pwp_steady. -/
def k0_stress_result (eid gp : ℕ) (sig : ℚ × ℚ × ℚ) (pwp_val : ℚ) : StressResult :=
  { element_id := eid, gp_id := gp,
    sig_xx := sig.1, sig_yy := sig.2.1, sig_xy := sig.2.2,
    sig_zz := sig.1,
    pwp_steady := pwp_val, pwp_excess := 0, pwp_total := pwp_val,
    is_yielded := false, m_stage := 1 }

/-! ## K0 procedure, step 4 of the kernel (backend/solver/k0_procedure.py) -/

/-- Encoding used by `compute_vertical_stress_k0_t6`: a missing K0 becomes
the sentinel -1 before the kernel runs. -/
def k0_encode (k0_x : Option ℚ) : ℚ :=
  match k0_x with
  | some v => v
  | none => -1

/-- K0 coefficient selection in `compute_k0_stresses_kernel`.  `sin_phi`
stands for the source's `np.sin(np.deg2rad(phi))`, supplied by the caller. -/
def k0_coefficient (k0v phi sin_phi nu : ℚ) : ℚ :=
  if k0v < 0 then
    (if phi > 0 then 1 - sin_phi
     else if nu > 0 then (min nu 0.499) / (1 - min nu 0.499)
     else 0.5)
  else k0v

/-- One Gauss point of the K0 kernel, step 4: total horizontal and vertical
stress with zero shear, given the integrated total vertical stress and the
steady pore pressure at the point. -/
def k0_gp_stress (k0v phi sin_phi nu sigma_v_total pwp : ℚ) : ℚ × ℚ × ℚ :=
  let sigma_v_eff := sigma_v_total - pwp
  let k0 := k0_coefficient k0v phi sin_phi nu
  let sigma_h_eff := k0 * sigma_v_eff
  let sigma_h_total := sigma_h_eff + pwp
  (sigma_h_total, sigma_v_total, 0)

/-- Nodal results emitted by the K0 branch of solve_phases: every node gets
ux = uy = 0. -/
def k0_phase_displacements (num_nodes : ℕ) : List NodeResult :=
  (List.range num_nodes).map (fun i => { id := i + 1, ux := 0, uy := 0 })

/-- Modelled from the amended claim: the K0 coefficient is the material's
supplied value when it is present and nonnegative; a negative supplied value
is treated like an absent one (the kernel's -1 sentinel test), falling back
to 1 - sin phi when phi > 0, else nu/(1-nu) with nu capped at 0.499 when
nu > 0, else 0.5. -/
def k0_coefficient_spec (k0_x : Option ℚ) (phi sin_phi nu : ℚ) : ℚ :=
  let auto :=
    if phi > 0 then 1 - sin_phi
    else if nu > 0 then (min nu 0.499) / (1 - min nu 0.499)
    else 0.5
  match k0_x with
  | some v => if 0 ≤ v then v else auto
  | none => auto

/-! ## Pre-flight settings validation (phase_solver.py, step 0, and error.py) -/

structure SolverSettings where
  tolerance : ℚ
  max_iterations : ℤ
  initial_step_size : ℚ
  max_load_fraction : ℚ
  max_steps : ℤ
  min_desired_iterations : Option ℤ
  max_desired_iterations : Option ℤ
deriving DecidableEq, Repr

inductive ValErrorCode
  | tolerance_oob
  | iterations_oob
  | step_size_oob
  | load_frac_oob
  | max_steps_oob
  | iter_mismatch
  | over_element_limit
deriving DecidableEq, Repr

/-- The validation-error list built at the top of solve_phases, in source
order.  The desired-iteration check is `(min or 0) > (max or 100)` in the
source, with Python truthiness: a max of 0 falls back to 100. -/
def validationErrors (s : SolverSettings) (num_elements : ℕ) : List ValErrorCode :=
  (if s.tolerance < 0.001 ∨ s.tolerance > 0.1 then [ValErrorCode.tolerance_oob] else []) ++
  (if s.max_iterations < 1 ∨ s.max_iterations > 100 then [ValErrorCode.iterations_oob] else []) ++
  (if s.initial_step_size < 0.001 ∨ s.initial_step_size > 1 then [ValErrorCode.step_size_oob] else []) ++
  (if s.max_load_fraction < 0.01 ∨ s.max_load_fraction > 1 then [ValErrorCode.load_frac_oob] else []) ++
  (if s.max_steps < 1 ∨ s.max_steps > 1000 then [ValErrorCode.max_steps_oob] else []) ++
  (if pyOrZ s.min_desired_iterations 0 > pyOrZ s.max_desired_iterations 100 then [ValErrorCode.iter_mismatch] else []) ++
  (if num_elements > 4000 then [ValErrorCode.over_element_limit] else [])

/-- Events emitted before any phase computation.  A `log` event's string
content is `get_error_info(code)`; the code determines it, so the event is
modelled by the code itself. -/
inductive SolverEvent
  | log (code : ValErrorCode)
  | phase_result (success : Bool) (displacements : List NodeResult) (stresses : List StressResult)
deriving DecidableEq, Repr

/-- The pre-flight guard of solve_phases: when the validation-error list is
nonempty it emits one log event per error followed by a failure
phase_result (with no displacements and no stresses) and returns without
doing any phase computation; otherwise (`none`) the solver proceeds. -/
def preflight (s : SolverSettings) (num_elements : ℕ) : Option (List SolverEvent) :=
  let errs := validationErrors s num_elements
  if errs.isEmpty then none
  else some (errs.map SolverEvent.log ++ [SolverEvent.phase_result false [] []])

/-! ## Theorems for claims C1, C2, C5, C6 -/

/-- Claim C1 as stated is false: an UndrainedB Gauss point one metre below
the water table receives the steady pore pressure -9.81, not zero, both in
the element-matrix computation and in the K0 kernel. -/
theorem C1_counterexample :
    pwp_at_gp DrainageType.undrainedB (some 1) 0 = -(9.81 : ℚ) ∧
    pwp_k0_kernel (drainage_code DrainageType.undrainedB) 1 0 = -(9.81 : ℚ) ∧
    ((-(9.81 : ℚ)) ≠ 0) := by
  refine ⟨?_, ?_, by norm_num⟩ <;>
    · simp [pwp_at_gp, pwp_k0_kernel, drainage_code]
      norm_num [gamma_w]

/-- Claim C1 amended: at element-matrix time and in the K0 kernel the steady
pore pressure is -gamma_w * (y_water - y_gp) below the interpolated water
table for the porous drainage types Drained, UndrainedA and UndrainedB, and
is exactly zero for UndrainedC and NonPorous. -/
theorem C1_steady_pwp_amended (dt : DrainageType) (wy y : ℚ) (hsent : -1e14 < wy) :
    ((dt = DrainageType.drained ∨ dt = DrainageType.undrainedA ∨ dt = DrainageType.undrainedB) →
      (y < wy →
        pwp_at_gp dt (some wy) y = -gamma_w * (wy - y) ∧
        pwp_k0_kernel (drainage_code dt) wy y = -gamma_w * (wy - y)) ∧
      (¬ y < wy →
        pwp_at_gp dt (some wy) y = 0 ∧
        pwp_k0_kernel (drainage_code dt) wy y = 0)) ∧
    ((dt = DrainageType.undrainedC ∨ dt = DrainageType.nonPorous) →
      pwp_at_gp dt (some wy) y = 0 ∧
      pwp_k0_kernel (drainage_code dt) wy y = 0) := by
  cases dt <;>
    simp only [pwp_at_gp, pwp_k0_kernel, drainage_code] <;>
    constructor <;> intro h <;> simp_all <;>
    intro h2 <;> simp_all <;> linarith

/-- Witness for C1_steady_pwp_amended at a Drained point below the table. -/
theorem C1_witness :
    pwp_at_gp DrainageType.drained (some 1) 0 = -gamma_w * (1 - 0) ∧
    pwp_k0_kernel (drainage_code DrainageType.drained) 1 0 = -gamma_w * (1 - 0) :=
  ((C1_steady_pwp_amended DrainageType.drained 1 0 (by norm_num)).1
    (Or.inl rfl)).1 (by norm_num)

/-- Claim C2 as stated is false: a K0-phase StressResult reports
`sig_zz = sig_xx`, not the plane-strain formula.  Concrete input: Drained
material with supplied K0 = 1/2, nu = 3/10, total vertical stress -100,
steady pore pressure 0; the kernel stores (-50, -100, 0) and the K0 branch
emits sig_zz = -50, while the claim's formula gives -45. -/
theorem C2_counterexample :
    (k0_stress_result 1 1 (k0_gp_stress (k0_encode (some (1/2))) 0 0 (3/10) (-100) 0) 0).sig_zz ≠
      (3/10 : ℚ) *
        ((k0_stress_result 1 1 (k0_gp_stress (k0_encode (some (1/2))) 0 0 (3/10) (-100) 0) 0).sig_xx +
         (k0_stress_result 1 1 (k0_gp_stress (k0_encode (some (1/2))) 0 0 (3/10) (-100) 0) 0).sig_yy -
         2 * (k0_stress_result 1 1 (k0_gp_stress (k0_encode (some (1/2))) 0 0 (3/10) (-100) 0) 0).pwp_total) +
      (k0_stress_result 1 1 (k0_gp_stress (k0_encode (some (1/2))) 0 0 (3/10) (-100) 0) 0).pwp_total := by
  norm_num [k0_stress_result, k0_gp_stress, k0_coefficient, k0_encode]

/-- Claim C2 amended: StressResults from the Plastic/Safety result gathering
satisfy sig_zz = nu*(sig_xx+sig_yy) for NonPorous and UndrainedC and
sig_zz = nu*(sig_xx+sig_yy-2*pwp_total)+pwp_total for the other drainage
types, while StressResults from the K0 branch report sig_zz = sig_xx. -/
theorem C2_sig_zz_amended (eid gp : ℕ) (dt : DrainageType) (nu : ℚ)
    (sig : ℚ × ℚ × ℚ) (ps pe pv m : ℚ) (yld : Bool) :
    ((dt = DrainageType.nonPorous ∨ dt = DrainageType.undrainedC →
        (plastic_stress_result eid gp dt nu sig ps pe yld m).sig_zz =
          nu * ((plastic_stress_result eid gp dt nu sig ps pe yld m).sig_xx +
                (plastic_stress_result eid gp dt nu sig ps pe yld m).sig_yy)) ∧
     (¬ (dt = DrainageType.nonPorous ∨ dt = DrainageType.undrainedC) →
        (plastic_stress_result eid gp dt nu sig ps pe yld m).sig_zz =
          nu * ((plastic_stress_result eid gp dt nu sig ps pe yld m).sig_xx +
                (plastic_stress_result eid gp dt nu sig ps pe yld m).sig_yy -
                2 * (plastic_stress_result eid gp dt nu sig ps pe yld m).pwp_total) +
            (plastic_stress_result eid gp dt nu sig ps pe yld m).pwp_total)) ∧
    (k0_stress_result eid gp sig pv).sig_zz = (k0_stress_result eid gp sig pv).sig_xx := by
  refine ⟨⟨fun h => ?_, fun h => ?_⟩, rfl⟩ <;>
    simp [plastic_stress_result, sig_zz_derived, h]

/-- Witness for C2_sig_zz_amended at a Drained plastic result. -/
theorem C2_witness :
    (plastic_stress_result 1 1 DrainageType.drained (3/10) (-50, -100, 0) (-5) (-2) false 1).sig_zz =
      (3/10 : ℚ) *
        ((plastic_stress_result 1 1 DrainageType.drained (3/10) (-50, -100, 0) (-5) (-2) false 1).sig_xx +
         (plastic_stress_result 1 1 DrainageType.drained (3/10) (-50, -100, 0) (-5) (-2) false 1).sig_yy -
         2 * (plastic_stress_result 1 1 DrainageType.drained (3/10) (-50, -100, 0) (-5) (-2) false 1).pwp_total) +
      (plastic_stress_result 1 1 DrainageType.drained (3/10) (-50, -100, 0) (-5) (-2) false 1).pwp_total :=
  ((C2_sig_zz_amended 1 1 DrainageType.drained (3/10) (-50, -100, 0) (-5) (-2) 0 1 false).1).2
    (by simp)

/-- Claim C5 as stated is false: a supplied negative K0 coefficient is not
used; the kernel's sentinel test `k0 < 0` treats it as absent.  With
k0_x = -1/2 supplied, phi = 0, nu = 0, total vertical stress -100 and zero
pore pressure, the kernel uses the fallback 0.5 and stores sigma_h = -50,
while the claim's rule (use the supplied coefficient) would give +50. -/
theorem C5_counterexample :
    (k0_gp_stress (k0_encode (some (-1/2))) 0 0 0 (-100) 0).1 = -50 ∧
    ((-1/2 : ℚ) * ((-100) - 0) + 0 = 50) ∧
    ((-50 : ℚ) ≠ 50) := by
  norm_num [k0_gp_stress, k0_coefficient, k0_encode]

/-- Claim C5 amended: after a K0 phase each Gauss point stores
(sigma_h, sigma_v, 0) with zero shear where
sigma_h = K0*(sigma_v - p_steady) + p_steady, K0 being the supplied
coefficient when present and nonnegative (a negative supplied value is
treated as absent), else 1 - sin phi when phi > 0, else nu/(1-nu) with nu
capped at 0.499 when nu > 0, else 0.5; and the phase reports zero
displacement for every node. -/
theorem C5_k0_stress_amended (k0_x : Option ℚ) (phi sin_phi nu sigma_v p : ℚ)
    (num_nodes : ℕ) :
    k0_gp_stress (k0_encode k0_x) phi sin_phi nu sigma_v p =
      (k0_coefficient_spec k0_x phi sin_phi nu * (sigma_v - p) + p, sigma_v, 0) ∧
    (∀ nr ∈ k0_phase_displacements num_nodes, nr.ux = 0 ∧ nr.uy = 0) := by
  constructor
  · cases k0_x with
    | none =>
        simp only [k0_gp_stress, k0_coefficient, k0_coefficient_spec, k0_encode]
        norm_num
    | some v =>
        simp only [k0_gp_stress, k0_coefficient, k0_coefficient_spec, k0_encode]
        rcases lt_or_le v 0 with hv | hv
        · rw [if_pos hv, if_neg (not_le.mpr hv)]
        · rw [if_neg (not_lt.mpr hv), if_pos hv]
  · intro nr hnr
    simp only [k0_phase_displacements, List.mem_map] at hnr
    obtain ⟨i, _, rfl⟩ := hnr
    exact ⟨rfl, rfl⟩

/-- Witness for C5_k0_stress_amended: supplied K0 = 1/2, two nodes. -/
theorem C5_witness :
    k0_gp_stress (k0_encode (some (1/2))) 30 (1/2) (3/10) (-100) 0 =
      (k0_coefficient_spec (some (1/2)) 30 (1/2) (3/10) * ((-100) - 0) + 0, -100, 0) ∧
    ({ id := 1, ux := 0, uy := 0 } : NodeResult).ux = 0 :=
  ⟨(C5_k0_stress_amended (some (1/2)) 30 (1/2) (3/10) (-100) 0 2).1,
   ((C5_k0_stress_amended (some (1/2)) 30 (1/2) (3/10) (-100) 0 2).2
      { id := 1, ux := 0, uy := 0 } (by decide)).1⟩

/-- Claim C6 is right and the code is wrong on the desired-iteration bound:
with min_desired_iterations = 5 and max_desired_iterations = 0 (all other
settings in range) the minimum exceeds the maximum, yet Python's
`(min or 0) > (max or 100)` turns the falsy 0 into 100, no validation error
is recorded, no failure phase_result is emitted, and the computation
proceeds — contradicting the error catalog's own description of
VAL_ITER_MISMATCH. -/
theorem C6_validation_bug_eval :
    ({ tolerance := 0.01, max_iterations := 60, initial_step_size := 0.05,
       max_load_fraction := 0.5, max_steps := 100,
       min_desired_iterations := some 5,
       max_desired_iterations := some 0 } : SolverSettings).min_desired_iterations = some 5 ∧
    ({ tolerance := 0.01, max_iterations := 60, initial_step_size := 0.05,
       max_load_fraction := 0.5, max_steps := 100,
       min_desired_iterations := some 5,
       max_desired_iterations := some 0 } : SolverSettings).max_desired_iterations = some 0 ∧
    (0 : ℤ) < 5 ∧
    validationErrors
      { tolerance := 0.01, max_iterations := 60, initial_step_size := 0.05,
        max_load_fraction := 0.5, max_steps := 100,
        min_desired_iterations := some 5,
        max_desired_iterations := some 0 } 10 = [] ∧
    preflight
      { tolerance := 0.01, max_iterations := 60, initial_step_size := 0.05,
        max_load_fraction := 0.5, max_steps := 100,
        min_desired_iterations := some 5,
        max_desired_iterations := some 0 } 10 = none := by
  refine ⟨rfl, rfl, by norm_num, ?_, ?_⟩ <;>
    norm_num [validationErrors, preflight, pyOrZ]

/-! ## Mohr-Coulomb yield and return mapping (backend/solver/plasticity.py)

The source computes `radius = sqrt(((sig_xx - sig_yy)/2)^2 + sig_xy^2)`
in floating point.  The embedding passes `radius` as an argument,
characterized by `IsRadius`; likewise `sin_phi`/`cos_phi` stand for the
source's `np.sin(np.deg2rad(phi))`/`np.cos(np.deg2rad(phi))`, so a friction
angle 0 ≤ phi < 90 degrees corresponds to 0 ≤ sin_phi and 0 < cos_phi. -/

/-- `r` is the in-plane deviatoric radius of the stress (sig_xx, sig_yy, sig_xy). -/
def IsRadius (sig_xx sig_yy sig_xy r : ℚ) : Prop :=
  0 ≤ r ∧ r ^ 2 = ((sig_xx - sig_yy) / 2) ^ 2 + sig_xy ^ 2

instance (sig_xx sig_yy sig_xy r : ℚ) : Decidable (IsRadius sig_xx sig_yy sig_xy r) :=
  inferInstanceAs (Decidable (_ ∧ _))

/-- Mohr-Coulomb yield function `mohr_coulomb_yield`. -/
def mohr_coulomb_yield (sig_xx sig_yy sig_xy : ℚ) (c sin_phi cos_phi : ℚ)
    (radius : ℚ) : ℚ :=
  let s_avg := (sig_xx + sig_yy) / 2
  let sig_math_max := s_avg + radius
  let sig_math_min := s_avg - radius
  (sig_math_max - sig_math_min) + (sig_math_max + sig_math_min) * sin_phi - 2 * c * cos_phi

structure ReturnMapResult where
  sig_xx : ℚ
  sig_yy : ℚ
  sig_xy : ℚ
  yielded : Bool
deriving DecidableEq, Repr

/-- `q_target = 2*c*cos_phi - 2*p_trial*sin_phi` with `p_trial = s_avg_trial`. -/
def rm_q_target (sig_xx sig_yy c sin_phi cos_phi : ℚ) : ℚ :=
  2 * c * cos_phi - 2 * ((sig_xx + sig_yy) / 2) * sin_phi

/-- The trial mean stress after the tension cut-off cap: when `q_target < 0`
the cap `limit_p` is `c*cos_phi/sin_phi` (1e9 when `sin_phi = 0`) and
`s_avg_trial` is clamped to it. -/
def rm_s_avg_capped (sig_xx sig_yy c sin_phi cos_phi : ℚ) : ℚ :=
  let s_avg_trial := (sig_xx + sig_yy) / 2
  if rm_q_target sig_xx sig_yy c sin_phi cos_phi < 0 then
    (let limit_p := if sin_phi > 0 then c * cos_phi / sin_phi else 1e9
     if s_avg_trial > limit_p then limit_p else s_avg_trial)
  else s_avg_trial

/-- `q_target` after the tension cut-off sets it to zero when negative. -/
def rm_q_cut (sig_xx sig_yy c sin_phi cos_phi : ℚ) : ℚ :=
  if rm_q_target sig_xx sig_yy c sin_phi cos_phi < 0 then 0
  else rm_q_target sig_xx sig_yy c sin_phi cos_phi

/-- `scale_factor = clamp(q_target / (2*radius_trial), 0, 1)`, zero for a
degenerate radius. -/
def rm_scale (sig_xx sig_yy c sin_phi cos_phi radius_trial : ℚ) : ℚ :=
  if radius_trial > 1e-9 then
    (let sf := rm_q_cut sig_xx sig_yy c sin_phi cos_phi / (2 * radius_trial)
     let sf2 := if sf < 0 then 0 else sf
     if sf2 > 1 then 1 else sf2)
  else 0

/-- `cos_2theta` of the trial direction. -/
def rm_cos_2theta (sig_xx sig_yy radius_trial : ℚ) : ℚ :=
  if radius_trial > 1e-9 then (sig_xx - sig_yy) / (2 * radius_trial) else 1

/-- `sin_2theta` of the trial direction. -/
def rm_sin_2theta (sig_xy radius_trial : ℚ) : ℚ :=
  if radius_trial > 1e-9 then sig_xy / radius_trial else 0

/-- Radial return mapping `return_mapping_mohr_coulomb`.  The source also
returns the elastic `D` unchanged as the tangent; that output carries no
information and is omitted. -/
def return_mapping_mohr_coulomb (sig_xx_trial sig_yy_trial sig_xy_trial : ℚ)
    (c sin_phi cos_phi : ℚ) (radius_trial : ℚ) : ReturnMapResult :=
  if mohr_coulomb_yield sig_xx_trial sig_yy_trial sig_xy_trial c sin_phi cos_phi radius_trial ≤ 1e-6 then
    { sig_xx := sig_xx_trial, sig_yy := sig_yy_trial, sig_xy := sig_xy_trial, yielded := false }
  else
    let s_avg := rm_s_avg_capped sig_xx_trial sig_yy_trial c sin_phi cos_phi
    let radius_corrected :=
      radius_trial * rm_scale sig_xx_trial sig_yy_trial c sin_phi cos_phi radius_trial
    { sig_xx := s_avg + radius_corrected * rm_cos_2theta sig_xx_trial sig_yy_trial radius_trial,
      sig_yy := s_avg - radius_corrected * rm_cos_2theta sig_xx_trial sig_yy_trial radius_trial,
      sig_xy := radius_corrected * rm_sin_2theta sig_xy_trial radius_trial,
      yielded := true }

/-! Helper lemmas about the return mapping. -/

theorem mc_yield_eq (a b xy c sp cp r : ℚ) :
    mohr_coulomb_yield a b xy c sp cp r = 2 * r + (a + b) * sp - 2 * c * cp := by
  unfold mohr_coulomb_yield
  ring

theorem rm_scale_nonneg (a b c sp cp r : ℚ) : 0 ≤ rm_scale a b c sp cp r := by
  unfold rm_scale
  dsimp only
  split_ifs <;> linarith

theorem rm_scale_le_one (a b c sp cp r : ℚ) : rm_scale a b c sp cp r ≤ 1 := by
  unfold rm_scale
  dsimp only
  split_ifs <;> linarith

theorem rm_plastic_eq (a b xy c sp cp r : ℚ)
    (h : ¬ mohr_coulomb_yield a b xy c sp cp r ≤ 1e-6) :
    return_mapping_mohr_coulomb a b xy c sp cp r =
      { sig_xx := rm_s_avg_capped a b c sp cp +
          r * rm_scale a b c sp cp r * rm_cos_2theta a b r,
        sig_yy := rm_s_avg_capped a b c sp cp -
          r * rm_scale a b c sp cp r * rm_cos_2theta a b r,
        sig_xy := r * rm_scale a b c sp cp r * rm_sin_2theta xy r,
        yielded := true } := by
  unfold return_mapping_mohr_coulomb
  rw [if_neg h]

/-- When the cut-off triggers under admissible parameters, `sin_phi` is
positive and the cap engages, so the capped mean is the apex value. -/
theorem rm_capped_apex (a b c sp cp : ℚ)
    (hc : 0 ≤ c) (hs : 0 ≤ sp) (hcos : 0 < cp)
    (hq : rm_q_target a b c sp cp < 0) :
    0 < sp ∧ rm_s_avg_capped a b c sp cp = c * cp / sp := by
  have hsp : 0 < sp := by
    rcases lt_or_eq_of_le hs with h | h
    · exact h
    · exfalso
      unfold rm_q_target at hq
      rw [← h] at hq
      nlinarith
  refine ⟨hsp, ?_⟩
  unfold rm_s_avg_capped
  rw [if_pos hq]
  have hlim : (if sp > 0 then c * cp / sp else (1e9 : ℚ)) = c * cp / sp := if_pos hsp
  rw [hlim]
  have hgt : (a + b) / 2 > c * cp / sp := by
    unfold rm_q_target at hq
    rw [gt_iff_lt, div_lt_iff hsp]
    nlinarith
  rw [if_pos hgt]

theorem rm_uncapped (a b c sp cp : ℚ)
    (hq : ¬ rm_q_target a b c sp cp < 0) :
    rm_s_avg_capped a b c sp cp = (a + b) / 2 ∧
    rm_q_cut a b c sp cp = rm_q_target a b c sp cp := by
  unfold rm_s_avg_capped rm_q_cut
  rw [if_neg hq, if_neg hq]
  exact ⟨rfl, rfl⟩

/-- In the non-degenerate plastic branch with no cut-off, the scale factor
is exactly `q_target / (2*r)`. -/
theorem rm_scale_main (a b xy c sp cp r : ℚ)
    (hrad : r > 1e-9)
    (hq : ¬ rm_q_target a b c sp cp < 0)
    (hf : ¬ mohr_coulomb_yield a b xy c sp cp r ≤ 1e-6) :
    rm_scale a b c sp cp r = rm_q_target a b c sp cp / (2 * r) := by
  have hr0 : (0 : ℚ) < r := by linarith
  have hqq : 0 ≤ rm_q_target a b c sp cp := not_lt.mp hq
  have hcut : rm_q_cut a b c sp cp = rm_q_target a b c sp cp := (rm_uncapped a b c sp cp hq).2
  have hflt : 1e-6 < mohr_coulomb_yield a b xy c sp cp r := not_le.mp hf
  rw [mc_yield_eq] at hflt
  have hqlt : rm_q_target a b c sp cp < 2 * r := by
    unfold rm_q_target
    nlinarith
  unfold rm_scale
  rw [if_pos hrad, hcut]
  dsimp only
  have hsf0 : ¬ rm_q_target a b c sp cp / (2 * r) < 0 :=
    not_lt.mpr (div_nonneg hqq (by linarith))
  rw [if_neg hsf0]
  have hsf1 : ¬ rm_q_target a b c sp cp / (2 * r) > 1 := by
    rw [gt_iff_lt, not_lt]
    rw [div_le_one (by linarith : (0:ℚ) < 2 * r)]
    linarith
  rw [if_neg hsf1]

/-- When the tension cut-off sets `q_target` to zero, the scale factor is
zero. -/
theorem rm_scale_cutoff (a b c sp cp r : ℚ)
    (hq : rm_q_target a b c sp cp < 0) :
    rm_scale a b c sp cp r = 0 := by
  by_cases hrad : r > 1e-9 <;>
    simp [rm_scale, rm_q_cut, hrad, hq]

/-- The deviatoric radius of the plastic-branch output equals the corrected
radius `radius_trial * scale_factor`. -/
theorem rm_radius_out (a b xy c sp cp r rp : ℚ)
    (hr0 : 0 ≤ r) (hr2 : r ^ 2 = ((a - b) / 2) ^ 2 + xy ^ 2)
    (hrp : IsRadius
      (rm_s_avg_capped a b c sp cp + r * rm_scale a b c sp cp r * rm_cos_2theta a b r)
      (rm_s_avg_capped a b c sp cp - r * rm_scale a b c sp cp r * rm_cos_2theta a b r)
      (r * rm_scale a b c sp cp r * rm_sin_2theta xy r) rp) :
    rp = r * rm_scale a b c sp cp r := by
  obtain ⟨hrp0, hrp2⟩ := hrp
  have hs0 := rm_scale_nonneg a b c sp cp r
  by_cases hrad : r > 1e-9
  · have hrpos : (0:ℚ) < r := by linarith
    have hrne : r ≠ 0 := ne_of_gt hrpos
    have hct : rm_cos_2theta a b r = (a - b) / (2 * r) := by
      unfold rm_cos_2theta
      rw [if_pos hrad]
    have hst : rm_sin_2theta xy r = xy / r := by
      unfold rm_sin_2theta
      rw [if_pos hrad]
    rw [hct, hst] at hrp2
    have e1 : ((rm_s_avg_capped a b c sp cp + r * rm_scale a b c sp cp r * ((a - b) / (2 * r))) -
        (rm_s_avg_capped a b c sp cp - r * rm_scale a b c sp cp r * ((a - b) / (2 * r)))) / 2 =
        rm_scale a b c sp cp r * ((a - b) / 2) := by
      field_simp
      ring
    have e2 : r * rm_scale a b c sp cp r * (xy / r) = rm_scale a b c sp cp r * xy := by
      field_simp
      ring
    rw [e1, e2] at hrp2
    have key : rp ^ 2 = (r * rm_scale a b c sp cp r) ^ 2 := by
      rw [hrp2]
      linear_combination (-(rm_scale a b c sp cp r ^ 2)) * hr2
    have hRCnn : 0 ≤ r * rm_scale a b c sp cp r := mul_nonneg hr0 hs0
    have hfac : (rp - r * rm_scale a b c sp cp r) * (rp + r * rm_scale a b c sp cp r) = 0 := by
      linear_combination key
    rcases mul_eq_zero.mp hfac with h | h
    · linarith
    · linarith
  · have hsc : rm_scale a b c sp cp r = 0 := by
      unfold rm_scale
      rw [if_neg hrad]
    rw [hsc] at hrp2 ⊢
    have hz : rp ^ 2 = 0 := by
      rw [hrp2]
      ring
    have hrpz : rp = 0 := by
      exact pow_eq_zero_iff two_ne_zero |>.mp hz
    rw [hrpz, mul_zero]

/-- Claim C3: return_mapping_mohr_coulomb returns an admissible stress: the
yield value of the returned stress is at most 1e-6 (hence within the
claim's slack); an elastically admissible trial (f ≤ 1e-6) is returned
unchanged with yield flag false, and an inadmissible one sets the yield
flag.  `sin_phi`/`cos_phi` are the sine and cosine of the friction angle,
so cohesion c ≥ 0 and 0 ≤ phi < 90 degrees give the hypotheses below;
`r`/`rp` are the deviatoric radii of the trial and returned stresses. -/
theorem C3_return_map_admissible (sxx syy sxy c sp cp r rp : ℚ)
    (hr : IsRadius sxx syy sxy r)
    (hc : 0 ≤ c) (hs : 0 ≤ sp) (hcos : 0 < cp)
    (hrp : IsRadius (return_mapping_mohr_coulomb sxx syy sxy c sp cp r).sig_xx
      (return_mapping_mohr_coulomb sxx syy sxy c sp cp r).sig_yy
      (return_mapping_mohr_coulomb sxx syy sxy c sp cp r).sig_xy rp) :
    mohr_coulomb_yield (return_mapping_mohr_coulomb sxx syy sxy c sp cp r).sig_xx
      (return_mapping_mohr_coulomb sxx syy sxy c sp cp r).sig_yy
      (return_mapping_mohr_coulomb sxx syy sxy c sp cp r).sig_xy c sp cp rp ≤ 1e-6 ∧
    (mohr_coulomb_yield sxx syy sxy c sp cp r ≤ 1e-6 →
      return_mapping_mohr_coulomb sxx syy sxy c sp cp r =
        { sig_xx := sxx, sig_yy := syy, sig_xy := sxy, yielded := false }) ∧
    (1e-6 < mohr_coulomb_yield sxx syy sxy c sp cp r →
      (return_mapping_mohr_coulomb sxx syy sxy c sp cp r).yielded = true) := by
  obtain ⟨hr0, hr2⟩ := hr
  by_cases hf : mohr_coulomb_yield sxx syy sxy c sp cp r ≤ 1e-6
  · have hout : return_mapping_mohr_coulomb sxx syy sxy c sp cp r =
        { sig_xx := sxx, sig_yy := syy, sig_xy := sxy, yielded := false } := by
      unfold return_mapping_mohr_coulomb
      rw [if_pos hf]
    rw [hout] at hrp ⊢
    dsimp only at hrp ⊢
    obtain ⟨hrp0, hrp2⟩ := hrp
    have hsq : rp ^ 2 = r ^ 2 := by
      rw [hrp2, hr2]
    have hfac : (rp - r) * (rp + r) = 0 := by
      linear_combination hsq
    have hrpr : rp = r := by
      rcases mul_eq_zero.mp hfac with h | h
      · linarith
      · linarith
    rw [hrpr]
    exact ⟨hf, fun _ => rfl, fun hlt => absurd hf (not_le.mpr hlt)⟩
  · have hout := rm_plastic_eq sxx syy sxy c sp cp r hf
    rw [hout] at hrp ⊢
    dsimp only at hrp ⊢
    have hRC := rm_radius_out sxx syy sxy c sp cp r rp hr0 hr2 hrp
    refine ⟨?_, fun hcon => absurd hcon hf, fun _ => rfl⟩
    rw [mc_yield_eq, hRC]
    by_cases hq : rm_q_target sxx syy c sp cp < 0
    · obtain ⟨hsp, hS⟩ := rm_capped_apex sxx syy c sp cp hc hs hcos hq
      have hsc := rm_scale_cutoff sxx syy c sp cp r hq
      rw [hS, hsc]
      have hx : c * cp / sp * sp = c * cp := div_mul_cancel₀ _ (ne_of_gt hsp)
      have heq : 2 * (r * 0) +
          ((c * cp / sp + r * 0 * rm_cos_2theta sxx syy r) +
           (c * cp / sp - r * 0 * rm_cos_2theta sxx syy r)) * sp - 2 * c * cp =
          2 * (c * cp / sp * sp) - 2 * (c * cp) := by
        ring
      rw [heq, hx]
      norm_num
    · obtain ⟨hS, hcut⟩ := rm_uncapped sxx syy c sp cp hq
      have hqq : 0 ≤ rm_q_target sxx syy c sp cp := not_lt.mp hq
      by_cases hrad : r > 1e-9
      · have hsc := rm_scale_main sxx syy sxy c sp cp r hrad hq hf
        rw [hS, hsc]
        have hrne : r ≠ 0 := by
          intro h
          rw [h] at hrad
          norm_num at hrad
        have hRCq : r * (rm_q_target sxx syy c sp cp / (2 * r)) =
            rm_q_target sxx syy c sp cp / 2 := by
          field_simp
          ring
        have heq : 2 * (r * (rm_q_target sxx syy c sp cp / (2 * r))) +
            (((sxx + syy) / 2 + r * (rm_q_target sxx syy c sp cp / (2 * r)) * rm_cos_2theta sxx syy r) +
             ((sxx + syy) / 2 - r * (rm_q_target sxx syy c sp cp / (2 * r)) * rm_cos_2theta sxx syy r)) * sp -
            2 * c * cp =
            2 * (r * (rm_q_target sxx syy c sp cp / (2 * r))) + (sxx + syy) * sp - 2 * c * cp := by
          ring
        rw [heq, hRCq]
        have hq0 : rm_q_target sxx syy c sp cp = 2 * c * cp - (sxx + syy) * sp := by
          unfold rm_q_target
          ring
        rw [hq0]
        linarith
      · have hsc : rm_scale sxx syy c sp cp r = 0 := by
          unfold rm_scale
          rw [if_neg hrad]
        rw [hS, hsc]
        have heq : 2 * (r * 0) +
            (((sxx + syy) / 2 + r * 0 * rm_cos_2theta sxx syy r) +
             ((sxx + syy) / 2 - r * 0 * rm_cos_2theta sxx syy r)) * sp - 2 * c * cp =
            -(rm_q_target sxx syy c sp cp) := by
          unfold rm_q_target
          ring
        rw [heq]
        linarith

/-- Witness for C3_return_map_admissible on the plastic trial
(0, -4, 0) with c = 1, sin phi = cos phi = 1/2, trial radius 2, returned
radius 3/2. -/
theorem C3_witness :
    mohr_coulomb_yield (return_mapping_mohr_coulomb 0 (-4) 0 1 (1/2) (1/2) 2).sig_xx
      (return_mapping_mohr_coulomb 0 (-4) 0 1 (1/2) (1/2) 2).sig_yy
      (return_mapping_mohr_coulomb 0 (-4) 0 1 (1/2) (1/2) 2).sig_xy 1 (1/2) (1/2) (3/2) ≤ 1e-6 :=
  (C3_return_map_admissible 0 (-4) 0 1 (1/2) (1/2) 2 (3/2)
    (by norm_num [IsRadius])
    (by norm_num) (by norm_num) (by norm_num)
    (by norm_num [IsRadius, return_mapping_mohr_coulomb, mohr_coulomb_yield,
      rm_s_avg_capped, rm_q_target, rm_q_cut, rm_scale, rm_cos_2theta, rm_sin_2theta])).1

/-- The scale factor of a degenerate trial radius is zero. -/
theorem rm_scale_degenerate (a b c sp cp r : ℚ) (hrad : ¬ r > 1e-9) :
    rm_scale a b c sp cp r = 0 := by
  unfold rm_scale
  rw [if_neg hrad]

/-- Claim C10: for an inadmissible trial stress the return mapping preserves
the trial mean stress unless the tension cut-off engages (q_target < 0, in
which case the mean becomes the apex value c*cos_phi/sin_phi); it never
increases the in-plane deviatoric radius; and it reuses the trial direction,
scaling the deviator by a factor t between 0 and 1, so the returned shear
stress has the sign of the trial shear stress (their product is
nonnegative). -/
theorem C10_return_map_geometry (sxx syy sxy c sp cp r : ℚ)
    (hr : IsRadius sxx syy sxy r)
    (hc : 0 ≤ c) (hs : 0 ≤ sp) (hcos : 0 < cp)
    (hf : 1e-6 < mohr_coulomb_yield sxx syy sxy c sp cp r) :
    ((¬ rm_q_target sxx syy c sp cp < 0 →
        ((return_mapping_mohr_coulomb sxx syy sxy c sp cp r).sig_xx +
         (return_mapping_mohr_coulomb sxx syy sxy c sp cp r).sig_yy) / 2 = (sxx + syy) / 2) ∧
     (rm_q_target sxx syy c sp cp < 0 →
        ((return_mapping_mohr_coulomb sxx syy sxy c sp cp r).sig_xx +
         (return_mapping_mohr_coulomb sxx syy sxy c sp cp r).sig_yy) / 2 = c * cp / sp)) ∧
    (∀ rp, IsRadius (return_mapping_mohr_coulomb sxx syy sxy c sp cp r).sig_xx
        (return_mapping_mohr_coulomb sxx syy sxy c sp cp r).sig_yy
        (return_mapping_mohr_coulomb sxx syy sxy c sp cp r).sig_xy rp → rp ≤ r) ∧
    (∃ t, 0 ≤ t ∧ t ≤ 1 ∧
      (return_mapping_mohr_coulomb sxx syy sxy c sp cp r).sig_xy = t * sxy ∧
      (return_mapping_mohr_coulomb sxx syy sxy c sp cp r).sig_xx -
        (return_mapping_mohr_coulomb sxx syy sxy c sp cp r).sig_yy = t * (sxx - syy)) ∧
    0 ≤ (return_mapping_mohr_coulomb sxx syy sxy c sp cp r).sig_xy * sxy := by
  obtain ⟨hr0, hr2⟩ := hr
  have hf' : ¬ mohr_coulomb_yield sxx syy sxy c sp cp r ≤ 1e-6 := not_le.mpr hf
  have hout := rm_plastic_eq sxx syy sxy c sp cp r hf'
  rw [hout]
  dsimp only
  have hdir : ∃ t, 0 ≤ t ∧ t ≤ 1 ∧
      r * rm_scale sxx syy c sp cp r * rm_sin_2theta sxy r = t * sxy ∧
      (rm_s_avg_capped sxx syy c sp cp + r * rm_scale sxx syy c sp cp r * rm_cos_2theta sxx syy r) -
        (rm_s_avg_capped sxx syy c sp cp - r * rm_scale sxx syy c sp cp r * rm_cos_2theta sxx syy r) =
        t * (sxx - syy) := by
    by_cases hrad : r > 1e-9
    · have hrne : r ≠ 0 := by
        intro h
        rw [h] at hrad
        norm_num at hrad
      refine ⟨rm_scale sxx syy c sp cp r, rm_scale_nonneg sxx syy c sp cp r,
        rm_scale_le_one sxx syy c sp cp r, ?_, ?_⟩
      · unfold rm_sin_2theta
        rw [if_pos hrad]
        field_simp
        ring
      · unfold rm_cos_2theta
        rw [if_pos hrad]
        field_simp
        ring
    · have hsc := rm_scale_degenerate sxx syy c sp cp r hrad
      refine ⟨0, le_refl 0, by norm_num, ?_, ?_⟩
      · rw [hsc]
        ring
      · rw [hsc]
        ring
  refine ⟨⟨?_, ?_⟩, ?_, hdir, ?_⟩
  · intro hq
    rw [(rm_uncapped sxx syy c sp cp hq).1]
    ring
  · intro hq
    obtain ⟨hsp, hS⟩ := rm_capped_apex sxx syy c sp cp hc hs hcos hq
    rw [hS]
    ring
  · intro rp hrp
    have hRC := rm_radius_out sxx syy sxy c sp cp r rp hr0 hr2 hrp
    rw [hRC]
    exact mul_le_of_le_one_right hr0 (rm_scale_le_one sxx syy c sp cp r)
  · obtain ⟨t, ht0, ht1, hxy, hd⟩ := hdir
    rw [hxy]
    nlinarith [mul_nonneg ht0 (sq_nonneg sxy)]

/-- Witness for C10_return_map_geometry: the same plastic trial as the C3
witness, extracting the preserved-mean conclusion (q_target = 3 there). -/
theorem C10_witness :
    ((return_mapping_mohr_coulomb 0 (-4) 0 1 (1/2) (1/2) 2).sig_xx +
     (return_mapping_mohr_coulomb 0 (-4) 0 1 (1/2) (1/2) 2).sig_yy) / 2 = ((0:ℚ) + -4) / 2 :=
  ((C10_return_map_geometry 0 (-4) 0 1 (1/2) (1/2) 2
      (by norm_num [IsRadius]) (by norm_num) (by norm_num) (by norm_num)
      (by norm_num [mohr_coulomb_yield])).1).1
    (by norm_num [rm_q_target])

/-! ## Outer phase loop (phase_solver.py, end-of-phase bookkeeping)

The body of one phase is abstracted to a function `run` that returns the
reached load fraction and the candidate committed state; the loop skeleton
— the success test `(not srm and m >= 0.999) or (srm and m > 1.0)`, the
commit-on-success and the `break` on failure — is translated from the
source. -/

structure PhaseSpec where
  id : ℕ
  is_srm : Bool
deriving DecidableEq, Repr

/-- The success criterion at the end of a phase. -/
def phase_success (is_srm : Bool) (reached_m_stage : ℚ) : Bool :=
  (!is_srm && decide (reached_m_stage ≥ 0.999)) || (is_srm && decide (reached_m_stage > 1))

structure PhaseOutcome (σ : Type) where
  reached_m_stage : ℚ
  candidate : σ

/-- The phase loop: each phase runs from the committed global state; on
success its candidate state is committed and the next phase runs, on
failure its result (success = false) is appended and the loop breaks,
leaving the committed state untouched. -/
def solve_phase_loop {σ : Type} (run : σ → PhaseSpec → PhaseOutcome σ) :
    σ → List PhaseSpec → List (ℕ × Bool) × σ
  | st, [] => ([], st)
  | st, p :: ps =>
    let out := run st p
    if phase_success p.is_srm out.reached_m_stage then
      let rest := solve_phase_loop run out.candidate ps
      ((p.id, true) :: rest.1, rest.2)
    else
      ([(p.id, false)], st)

/-- Claim C7: when a phase fails (its reached load fraction does not meet
the success criterion), the loop emits exactly that phase's result with
success = false, processes none of the subsequent phases, and the committed
global state (per-Gauss-point stress, strain, excess pore pressure, yield
flags, and cumulative displacements — the `σ` it started the phase with,
i.e. whatever the last successful phase committed) is returned unchanged. -/
theorem C7_phase_failure_halts {σ : Type} (run : σ → PhaseSpec → PhaseOutcome σ)
    (st : σ) (p : PhaseSpec) (ps : List PhaseSpec)
    (hfail : phase_success p.is_srm (run st p).reached_m_stage = false) :
    solve_phase_loop run st (p :: ps) = ([(p.id, false)], st) := by
  unfold solve_phase_loop
  dsimp only
  rw [hfail]
  simp

/-- Witness for C7_phase_failure_halts: a two-phase list whose first phase
reaches only m = 0 fails immediately and phase 2 is never run. -/
theorem C7_witness :
    solve_phase_loop (fun (st : ℚ) _ => { reached_m_stage := 0, candidate := st + 1 }) 7
      [{ id := 1, is_srm := false }, { id := 2, is_srm := false }] = ([(1, false)], 7) :=
  C7_phase_failure_halts (fun (st : ℚ) _ => { reached_m_stage := 0, candidate := st + 1 }) 7
    { id := 1, is_srm := false } [{ id := 2, is_srm := false }] (by norm_num [phase_success])

/-! ## M-stage step loop transition (phase_solver.py, the while loop)

One iteration of the load-advancement loop.  The Newton inner loop is
abstracted to `newton`, returning `some (iterations, new_state)` when the
step converged and `none` otherwise; everything else — the loop-condition
test, the max-steps and SRM-floor breaks, the step clipping to the target
m = 1, the growth/shrink adaptation, the halve-and-retry from the
step-start snapshot, and the small-step abort — is translated from the
source. -/

structure StepLoopState (σ : Type) where
  m_stage : ℚ
  step_size : ℚ
  step_count : ℕ
  committed : σ

inductive StepExitReason
  | target_done
  | max_steps_reached
  | srm_floor
  | aborted_small_step
deriving DecidableEq, Repr

inductive StepResult (σ : Type)
  | exited (reason : StepExitReason) (final : StepLoopState σ)
  | next (st : StepLoopState σ)

/-- The non-convergence step-size floor: 1e-4 for Plastic phases and 0.001
for Safety phases. -/
def newton_threshold (is_srm : Bool) : ℚ := if is_srm then 0.001 else 1e-4

def mstage_loop_iter {σ : Type} (is_srm : Bool) (min_desired max_desired : ℕ)
    (max_steps : ℕ) (newton : ℚ → σ → Option (ℕ × σ))
    (st : StepLoopState σ) : StepResult σ :=
  if ¬ ((¬ is_srm ∧ st.m_stage < 1) ∨ (is_srm ∧ st.m_stage < 100)) then
    .exited .target_done st
  else if st.step_count > max_steps then
    .exited .max_steps_reached st
  else if is_srm ∧ st.step_size < 0.0001 then
    .exited .srm_floor st
  else
    let step_size := if ¬ is_srm ∧ st.m_stage + st.step_size > 1 then 1 - st.m_stage else st.step_size
    let target_m_stage := st.m_stage + step_size
    match newton target_m_stage st.committed with
    | some (iters, new_state) =>
      .next { m_stage := target_m_stage,
              step_size := if iters < min_desired then step_size * 1.2
                           else if iters > max_desired then step_size * 0.5
                           else step_size,
              step_count := st.step_count + 1,
              committed := new_state }
    | none =>
      if step_size > newton_threshold is_srm then
        .next { m_stage := st.m_stage, step_size := step_size * 0.5,
                step_count := st.step_count, committed := st.committed }
      else
        .exited .aborted_small_step st

/-- Claim C9: within a Plastic or Safety phase, after a converged step the
step size (clipped to reach m = 1 exactly for Plastic phases) is multiplied
by 1.2 when the Newton iteration count is below min_desired and by 0.5 when
it is above max_desired; after a non-converged step it is halved and the
step retried from the step-start snapshot (same m, same step counter, same
committed state); and the loop exits abnormally only when the step size is
at or below the floor (1e-4 Plastic, 0.001 Safety, with the SRM limit-state
break at 1e-4 < 0.001) or the step counter exceeds max_steps — the
loop-condition exit implies phase success. -/
theorem C9_step_adaptation {σ : Type} (is_srm : Bool) (min_desired max_desired : ℕ)
    (max_steps : ℕ) (newton : ℚ → σ → Option (ℕ × σ)) (st : StepLoopState σ)
    (hloop : (¬ is_srm ∧ st.m_stage < 1) ∨ (is_srm ∧ st.m_stage < 100))
    (hsteps : ¬ st.step_count > max_steps)
    (hfloor : ¬ (is_srm ∧ st.step_size < 0.0001)) :
    (∀ iters new_state,
      newton (st.m_stage + (if ¬ is_srm ∧ st.m_stage + st.step_size > 1 then 1 - st.m_stage else st.step_size)) st.committed = some (iters, new_state) →
      mstage_loop_iter is_srm min_desired max_desired max_steps newton st =
        .next { m_stage := st.m_stage + (if ¬ is_srm ∧ st.m_stage + st.step_size > 1 then 1 - st.m_stage else st.step_size),
                step_size :=
                  (if iters < min_desired then (if ¬ is_srm ∧ st.m_stage + st.step_size > 1 then 1 - st.m_stage else st.step_size) * 1.2
                   else if iters > max_desired then (if ¬ is_srm ∧ st.m_stage + st.step_size > 1 then 1 - st.m_stage else st.step_size) * 0.5
                   else (if ¬ is_srm ∧ st.m_stage + st.step_size > 1 then 1 - st.m_stage else st.step_size)),
                step_count := st.step_count + 1, committed := new_state }) ∧
    (newton (st.m_stage + (if ¬ is_srm ∧ st.m_stage + st.step_size > 1 then 1 - st.m_stage else st.step_size)) st.committed = none →
      ((if ¬ is_srm ∧ st.m_stage + st.step_size > 1 then 1 - st.m_stage else st.step_size) > newton_threshold is_srm →
        mstage_loop_iter is_srm min_desired max_desired max_steps newton st =
          .next { m_stage := st.m_stage,
                  step_size := (if ¬ is_srm ∧ st.m_stage + st.step_size > 1 then 1 - st.m_stage else st.step_size) * 0.5,
                  step_count := st.step_count, committed := st.committed }) ∧
      (¬ (if ¬ is_srm ∧ st.m_stage + st.step_size > 1 then 1 - st.m_stage else st.step_size) > newton_threshold is_srm →
        mstage_loop_iter is_srm min_desired max_desired max_steps newton st =
          .exited .aborted_small_step st)) ∧
    (∀ reason final, ∀ st2 : StepLoopState σ,
      mstage_loop_iter is_srm min_desired max_desired max_steps newton st2 = .exited reason final →
      final = st2 ∧
      (reason = .max_steps_reached → st2.step_count > max_steps) ∧
      (reason = .srm_floor → is_srm = true ∧ st2.step_size < 0.0001) ∧
      (reason = .aborted_small_step →
        (if ¬ is_srm ∧ st2.m_stage + st2.step_size > 1 then 1 - st2.m_stage else st2.step_size) ≤ newton_threshold is_srm) ∧
      (reason = .target_done → phase_success is_srm st2.m_stage = true)) := by
  refine ⟨?_, ?_, ?_⟩
  · intro iters new_state hnewton
    unfold mstage_loop_iter
    rw [if_neg (not_not_intro hloop), if_neg hsteps, if_neg hfloor]
    dsimp only
    simp only [hnewton]
  · intro hnewton
    refine ⟨fun hthr => ?_, fun hthr => ?_⟩
    · unfold mstage_loop_iter
      rw [if_neg (not_not_intro hloop), if_neg hsteps, if_neg hfloor]
      dsimp only
      simp only [hnewton]
      rw [if_pos hthr]
    · unfold mstage_loop_iter
      rw [if_neg (not_not_intro hloop), if_neg hsteps, if_neg hfloor]
      dsimp only
      simp only [hnewton]
      rw [if_neg hthr]
  · intro reason final st2 hiter
    unfold mstage_loop_iter at hiter
    by_cases h1 : ¬ ((¬ is_srm ∧ st2.m_stage < 1) ∨ (is_srm ∧ st2.m_stage < 100))
    · rw [if_pos h1] at hiter
      injection hiter with hA hB
      subst hA
      subst hB
      refine ⟨rfl, ?_, ?_, ?_, ?_⟩
      · intro h
        exact absurd h (by decide)
      · intro h
        exact absurd h (by decide)
      · intro h
        exact absurd h (by decide)
      · intro _
        push_neg at h1
        obtain ⟨ha, hb⟩ := h1
        cases hsrm : is_srm with
        | false =>
            subst hsrm
            have hm : 1 ≤ st2.m_stage := ha (by simp)
            simp only [phase_success, Bool.not_false, Bool.true_and, Bool.false_and,
              Bool.or_false, decide_eq_true_eq]
            linarith
        | true =>
            subst hsrm
            have hm : 100 ≤ st2.m_stage := hb rfl
            simp only [phase_success, Bool.not_true, Bool.false_and, Bool.true_and,
              Bool.false_or, decide_eq_true_eq]
            linarith
    · rw [if_neg h1] at hiter
      by_cases h2 : st2.step_count > max_steps
      · rw [if_pos h2] at hiter
        injection hiter with hA hB
        subst hA
        subst hB
        refine ⟨rfl, fun _ => h2, ?_, ?_, ?_⟩ <;>
          · intro h
            exact absurd h (by decide)
      · rw [if_neg h2] at hiter
        by_cases h3 : is_srm ∧ st2.step_size < 0.0001
        · rw [if_pos h3] at hiter
          injection hiter with hA hB
          subst hA
          subst hB
          refine ⟨rfl, ?_, fun _ => ⟨h3.1, h3.2⟩, ?_, ?_⟩ <;>
            · intro h
              exact absurd h (by decide)
        · rw [if_neg h3] at hiter
          dsimp only at hiter
          cases hnew : newton (st2.m_stage + (if ¬ is_srm ∧ st2.m_stage + st2.step_size > 1 then 1 - st2.m_stage else st2.step_size)) st2.committed with
          | none =>
              simp only [hnew] at hiter
              by_cases h4 : (if ¬ is_srm ∧ st2.m_stage + st2.step_size > 1 then 1 - st2.m_stage else st2.step_size) > newton_threshold is_srm
              · rw [if_pos h4] at hiter
                exact absurd hiter (by simp)
              · rw [if_neg h4] at hiter
                injection hiter with hA hB
                subst hA
                subst hB
                refine ⟨rfl, ?_, ?_, fun _ => not_lt.mp h4, ?_⟩ <;>
                  · intro h
                    exact absurd h (by decide)
          | some pair =>
              simp only [hnew] at hiter
              exact absurd hiter (by simp)

/-- Witness for C9_step_adaptation: a Plastic step at m = 0 with step size
1/2 that converges in 1 iteration (below min_desired = 3) grows the step by
1.2. -/
theorem C9_witness :
    mstage_loop_iter false 3 15 100 (fun _ (s : Unit) => some (1, s))
      { m_stage := 0, step_size := 1/2, step_count := 0, committed := () } =
      .next { m_stage := 0 + (if ¬ false ∧ (0:ℚ) + 1/2 > 1 then 1 - 0 else 1/2),
              step_size := (if (1:ℕ) < 3 then (if ¬ false ∧ (0:ℚ) + 1/2 > 1 then 1 - 0 else 1/2) * 1.2
                            else if (1:ℕ) > 15 then (if ¬ false ∧ (0:ℚ) + 1/2 > 1 then 1 - 0 else 1/2) * 0.5
                            else (if ¬ false ∧ (0:ℚ) + 1/2 > 1 then 1 - 0 else 1/2)),
              step_count := 0 + 1, committed := () } :=
  (C9_step_adaptation false 3 15 100 (fun _ (s : Unit) => some (1, s))
      { m_stage := 0, step_size := 1/2, step_count := 0, committed := () }
      (Or.inl ⟨by simp, by norm_num⟩) (by norm_num) (by simp)).1 1 () rfl

/-! ## T6 element kernel (backend/solver/element_t6.py)

Node coordinates, shape functions and the strain-displacement matrix over
`ℚ`.  `np.linalg.det` and `np.linalg.inv` on the 2x2 Jacobian are embedded
as the exact closed forms. -/

def GAUSS_POINTS : Fin 3 → ℚ × ℚ := ![(1/6, 1/6), (2/3, 1/6), (1/6, 2/3)]

def GAUSS_WEIGHTS : Fin 3 → ℚ := ![1/6, 1/6, 1/6]

def shape_functions_t6 (xi eta : ℚ) : Fin 6 → ℚ :=
  let zeta := 1 - xi - eta
  ![zeta * (2 * zeta - 1), xi * (2 * xi - 1), eta * (2 * eta - 1),
    4 * zeta * xi, 4 * xi * eta, 4 * eta * zeta]

def shape_function_derivatives_natural (xi eta : ℚ) : Matrix (Fin 2) (Fin 6) ℚ :=
  let zeta := 1 - xi - eta
  Matrix.of ![![-4 * zeta + 1, 4 * xi - 1, 0, 4 * (zeta - xi), 4 * eta, -4 * eta],
              ![-4 * zeta + 1, 0, 4 * eta - 1, -4 * xi, 4 * xi, 4 * (zeta - eta)]]

def compute_jacobian (node_coords : Matrix (Fin 6) (Fin 2) ℚ)
    (dN_natural : Matrix (Fin 2) (Fin 6) ℚ) : Matrix (Fin 2) (Fin 2) ℚ × ℚ :=
  let J := dN_natural * node_coords
  (J, J 0 0 * J 1 1 - J 0 1 * J 1 0)

def compute_b_matrix (node_coords : Matrix (Fin 6) (Fin 2) ℚ) (xi eta : ℚ) :
    Matrix (Fin 3) (Fin 12) ℚ × ℚ :=
  let dN_natural := shape_function_derivatives_natural xi eta
  let Jd := compute_jacobian node_coords dN_natural
  let det_J := Jd.2
  if |det_J| < 1e-10 then (0, 0)
  else
    let J := Jd.1
    let J_inv : Matrix (Fin 2) (Fin 2) ℚ :=
      Matrix.of ![![J 1 1 / det_J, -J 0 1 / det_J], ![-J 1 0 / det_J, J 0 0 / det_J]]
    let dN_physical := J_inv * dN_natural
    (Matrix.of fun r k =>
      let i : Fin 6 := ⟨k.val / 2, by have h := k.isLt; omega⟩
      if k.val % 2 = 0 then
        (if r = 0 then dN_physical 0 i else if r = 2 then dN_physical 1 i else 0)
      else
        (if r = 1 then dN_physical 1 i else if r = 2 then dN_physical 0 i else 0),
     det_J)

/-- Linear interpolation over consecutive polyline segments (the source's
final loop in `get_water_level_at`). -/
def interp_segments (x : ℚ) : List (ℚ × ℚ) → Option ℚ
  | p1 :: p2 :: rest =>
    if p1.1 ≤ x ∧ x ≤ p2.1 then
      some (p1.2 + (x - p1.1) / (p2.1 - p1.1) * (p2.2 - p1.2))
    else interp_segments x (p2 :: rest)
  | _ => none

/-- `get_water_level_at`: sort the polyline by x, clamp to the endpoints,
interpolate in between. -/
def get_water_level_at (x : ℚ) (water_level_polyline : Option (List (ℚ × ℚ))) : Option ℚ :=
  match water_level_polyline with
  | none => none
  | some pl =>
    if pl.length < 1 then none
    else
      let pts := List.insertionSort (fun p q => p.1 ≤ q.1) pl
      match pts, pts.getLast? with
      | p0 :: _, some plast =>
        if x ≤ p0.1 then some p0.2
        else if x ≥ plast.1 then some plast.2
        else interp_segments x pts
      | _, _ => none

/-- The material fields entering the embedded computations (models.py
`Material` carries more fields; they are not read by the code under
verification).  `youngsModulus` and `effyoungsModulus` default to 0.0 in the
source model, and the code reads the latter through Python `or`, so the
zero value stands for "unset". -/
structure Material where
  id : ℕ
  youngsModulus : ℚ
  effyoungsModulus : ℚ
  poissonsRatio : ℚ
  unitWeightUnsaturated : ℚ
  unitWeightSaturated : Option ℚ
  material_model : MaterialModel
  drainage_type : DrainageType
  k0_x : Option ℚ
deriving DecidableEq, Repr

/-- Plane-strain constitutive matrix: UndrainedC/NonPorous use the
total-stress modulus, the rest use `effyoungsModulus or 10000.0`. -/
def constitutive_D (mat : Material) : Matrix (Fin 3) (Fin 3) ℚ :=
  let E := if mat.drainage_type = .undrainedC ∨ mat.drainage_type = .nonPorous
    then mat.youngsModulus
    else (if mat.effyoungsModulus = 0 then 10000 else mat.effyoungsModulus)
  let nu := mat.poissonsRatio
  let factor := E / ((1 + nu) * (1 - 2 * nu))
  Matrix.of ![![(1 - nu) * factor, nu * factor, 0],
              ![nu * factor, (1 - nu) * factor, 0],
              ![0, 0, (1 - 2 * nu) / 2 * factor]]

/-- Unit-weight selection at a Gauss point: NonPorous always unsaturated;
below the table `unitWeightSaturated if unitWeightSaturated else
unitWeightUnsaturated`; else unsaturated. -/
def unit_weight_at (mat : Material) (water_y : Option ℚ) (y_gp : ℚ) : ℚ :=
  if mat.drainage_type = .nonPorous then mat.unitWeightUnsaturated
  else
    match water_y with
    | some wy =>
      if y_gp < wy then pyOrQ mat.unitWeightSaturated mat.unitWeightUnsaturated
      else mat.unitWeightUnsaturated
    | none => mat.unitWeightUnsaturated

structure GaussPointData where
  gp_id : ℕ
  xi : ℚ
  eta : ℚ
  x : ℚ
  y : ℚ
  weight : ℚ
  det_J : ℚ
  B : Matrix (Fin 3) (Fin 12) ℚ
  pwp : ℚ
  rho : ℚ

structure ElementMatrices where
  K : Matrix (Fin 12) (Fin 12) ℚ
  F_grav : Fin 12 → ℚ
  gauss_point_data : Fin 3 → GaussPointData
  D : Matrix (Fin 3) (Fin 3) ℚ

/-- One iteration of the Gauss-point loop of `compute_element_matrices_t6`:
the cached B matrix, Jacobian determinant, physical coordinates, steady
pore pressure and unit weight. -/
def element_gauss_point (node_coords : Matrix (Fin 6) (Fin 2) ℚ) (mat : Material)
    (water_level : Option (List (ℚ × ℚ))) (gp_idx : Fin 3) : GaussPointData :=
  let xi := (GAUSS_POINTS gp_idx).1
  let eta := (GAUSS_POINTS gp_idx).2
  let Bd := compute_b_matrix node_coords xi eta
  let N := shape_functions_t6 xi eta
  let x_gp := ∑ i, N i * node_coords i 0
  let y_gp := ∑ i, N i * node_coords i 1
  let water_y := get_water_level_at x_gp water_level
  { gp_id := gp_idx.val + 1, xi := xi, eta := eta, x := x_gp, y := y_gp,
    weight := GAUSS_WEIGHTS gp_idx, det_J := Bd.2, B := Bd.1,
    pwp := pwp_at_gp mat.drainage_type water_y y_gp,
    rho := unit_weight_at mat water_y y_gp }

/-- `compute_element_matrices_t6`: stiffness, gravity vector, Gauss-point
caches and constitutive matrix, integrated over the 3-point rule. -/
def compute_element_matrices_t6 (node_coords : Matrix (Fin 6) (Fin 2) ℚ)
    (mat : Material) (water_level : Option (List (ℚ × ℚ))) (thickness : ℚ) :
    ElementMatrices :=
  let D := constitutive_D mat
  let gpd := fun gp_idx => element_gauss_point node_coords mat water_level gp_idx
  { K := ∑ gp_idx : Fin 3,
      ((gpd gp_idx).det_J * (gpd gp_idx).weight * thickness) •
        (((gpd gp_idx).B).transpose * D * (gpd gp_idx).B),
    F_grav := fun k =>
      ∑ gp_idx : Fin 3,
        if k.val % 2 = 1 then
          -(shape_functions_t6 (GAUSS_POINTS gp_idx).1 (GAUSS_POINTS gp_idx).2
              ⟨k.val / 2, by have h := k.isLt; omega⟩) *
            (gpd gp_idx).rho * (gpd gp_idx).det_J * (gpd gp_idx).weight * thickness
        else 0,
    gauss_point_data := gpd,
    D := D }

/-! ## Per-element solver records and material reset/override
(phase_solver.py, element pre-calculation and step 0) -/

structure ElemProp where
  id : ℕ
  polygon_id : ℕ
  nodes : Fin 6 → ℕ
  coords : Matrix (Fin 6) (Fin 2) ℚ
  K : Matrix (Fin 12) (Fin 12) ℚ
  F_grav : Fin 12 → ℚ
  D : Matrix (Fin 3) (Fin 3) ℚ
  material : Material
  original_material : Material
  gauss_points : Fin 3 → GaussPointData

/-- The element record built once before the phase loop. -/
def init_elem_prop (eid poly : ℕ) (nodes : Fin 6 → ℕ)
    (coords : Matrix (Fin 6) (Fin 2) ℚ) (mat : Material)
    (water : Option (List (ℚ × ℚ))) : ElemProp :=
  let em := compute_element_matrices_t6 coords mat water 1
  { id := eid, polygon_id := poly, nodes := nodes, coords := coords,
    K := em.K, F_grav := em.F_grav, D := em.D,
    material := mat, original_material := mat,
    gauss_points := em.gauss_point_data }

/-- A phase's material override: recompute the element matrices with the
new material; the original material is kept. -/
def apply_material_override (new_mat : Material) (water : Option (List (ℚ × ℚ)))
    (ep : ElemProp) : ElemProp :=
  let em := compute_element_matrices_t6 ep.coords new_mat water 1
  { ep with
      K := em.K, F_grav := em.F_grav, D := em.D,
      material := new_mat, gauss_points := em.gauss_point_data }

/-- Step 0 of each phase: for non-Safety phases, an element whose material
differs (by id) from its original material is recomputed with the original
material. -/
def reset_material_state (phase_type : PhaseType) (water : Option (List (ℚ × ℚ)))
    (ep : ElemProp) : ElemProp :=
  if phase_type ≠ PhaseType.safetyAnalysis then
    (if ep.material.id ≠ ep.original_material.id then
      let em := compute_element_matrices_t6 ep.coords ep.original_material water 1
      { ep with
          K := em.K, F_grav := em.F_grav, D := em.D,
          material := ep.original_material, gauss_points := em.gauss_point_data }
    else ep)
  else ep

/-- Claim C8: at the start of a non-Safety phase, an element overridden by
an earlier phase is restored to its baseline material, and the restored
record equals the one computed with the baseline material from scratch —
same K_e, F_g, D, material and Gauss-point caches — so a later phase with
no overrides behaves as if the override had never occurred. -/
theorem C8_material_reset_idempotent (pt : PhaseType) (eid poly : ℕ)
    (nodes : Fin 6 → ℕ) (coords : Matrix (Fin 6) (Fin 2) ℚ)
    (water : Option (List (ℚ × ℚ))) (m0 m1 : Material)
    (hpt : pt ≠ PhaseType.safetyAnalysis)
    (hid : m1.id ≠ m0.id) :
    reset_material_state pt water
        (apply_material_override m1 water (init_elem_prop eid poly nodes coords m0 water)) =
      init_elem_prop eid poly nodes coords m0 water := by
  unfold reset_material_state apply_material_override init_elem_prop
  dsimp only
  rw [if_pos hpt, if_pos hid]

def matA : Material :=
  { id := 0, youngsModulus := 10000, effyoungsModulus := 10000,
    poissonsRatio := 3/10, unitWeightUnsaturated := 18,
    unitWeightSaturated := some 20, material_model := MaterialModel.linearElastic,
    drainage_type := DrainageType.drained, k0_x := none }

def matB : Material :=
  { matA with id := 1, effyoungsModulus := 20000 }

/-- Witness for C8_material_reset_idempotent: a Plastic phase resets an
override of matB back to the baseline matA. -/
theorem C8_witness :
    reset_material_state PhaseType.plastic none
        (apply_material_override matB none
          (init_elem_prop 1 0 (fun _ => 0) 0 matA none)) =
      init_elem_prop 1 0 (fun _ => 0) 0 matA none :=
  C8_material_reset_idempotent PhaseType.plastic 1 0 (fun _ => 0) 0 none matA matB
    (by decide) (by decide)

/-! ## Incremental external force Delta F (phase_solver.py, step 5)

Global dof vectors are functions `ℕ → ℚ`; dof `2*n` is the x component and
`2*n+1` the y component of node `n`. -/

/-- Scatter an element-local 12-vector into the global dof vector through
the element's node indices
(`delta_F[gi*2 : gi*2+2] += f_el[li*2 : li*2+2]`). -/
def scatter_element (nodes : Fin 6 → ℕ) (f_el : Fin 12 → ℚ) : ℕ → ℚ :=
  fun d => ∑ li : Fin 6,
    ((if d = 2 * nodes li then f_el ⟨2 * li.val, by have h := li.isLt; omega⟩ else 0) +
     (if d = 2 * nodes li + 1 then f_el ⟨2 * li.val + 1, by have h := li.isLt; omega⟩ else 0))

/-- Internal force of one element integrated from Gauss-point stresses:
`f_int_el += B.T @ sigma * det_J * weight * 1.0`. -/
def element_f_int (ep : ElemProp) (gp_stresses : Fin 3 → Fin 3 → ℚ) : Fin 12 → ℚ :=
  fun k => ∑ gp_idx : Fin 3,
    ((ep.gauss_points gp_idx).B).transpose.mulVec (gp_stresses gp_idx) k *
      (ep.gauss_points gp_idx).det_J * (ep.gauss_points gp_idx).weight * 1

/-- One element of part A of the Delta F loop: newly activated adds F_g,
deactivated subtracts it. -/
def gravity_step (parent_active current_active : List ℕ) (acc : ℕ → ℚ)
    (ep : ElemProp) : ℕ → ℚ :=
  if ep.polygon_id ∈ current_active ∧ ep.polygon_id ∉ parent_active then
    fun d => acc d + scatter_element ep.nodes ep.F_grav d
  else if ep.polygon_id ∈ parent_active ∧ ep.polygon_id ∉ current_active then
    fun d => acc d - scatter_element ep.nodes ep.F_grav d
  else acc

def gravity_delta_pass (elems : List ElemProp) (parent_active current_active : List ℕ)
    (acc : ℕ → ℚ) : ℕ → ℚ :=
  elems.foldl (gravity_step parent_active current_active) acc

/-- One element of part B: a deactivated element releases the internal
force of its committed stress state (`stress_state` maps element ids to
Gauss-point stresses). -/
def release_step (parent_active current_active : List ℕ)
    (stress_state : ℕ → Fin 3 → Fin 3 → ℚ) (acc : ℕ → ℚ) (ep : ElemProp) : ℕ → ℚ :=
  if ep.polygon_id ∈ parent_active ∧ ep.polygon_id ∉ current_active then
    fun d => acc d + scatter_element ep.nodes (element_f_int ep (stress_state ep.id)) d
  else acc

def stress_release_pass (elems : List ElemProp) (parent_active current_active : List ℕ)
    (stress_state : ℕ → Fin 3 → Fin 3 → ℚ) (acc : ℕ → ℚ) : ℕ → ℚ :=
  elems.foldl (release_step parent_active current_active stress_state) acc

structure PointLoadDef where
  fx : ℚ
  fy : ℚ
deriving DecidableEq, Repr

structure LineLoadDef where
  fx : ℚ
  fy : ℚ
deriving DecidableEq, Repr

/-- One resolved line-load edge: 0-based corner nodes n1, n2, midpoint n3
and the edge length `L = norm(p2 - p1)` (a floating square root in the
source, passed in precomputed). -/
structure LineLoadAssign where
  n1 : ℕ
  n2 : ℕ
  n3 : ℕ
  length : ℚ
deriving DecidableEq, Repr

/-- `apply_all_loads`: every active load id contributes its point load at
the resolved node and its line load distributed parabolically
(1/6, 1/6, 2/3) over each assigned T6 edge. -/
def apply_all_loads (pl_map : ℕ → Option PointLoadDef) (pl_assign : ℕ → Option ℕ)
    (ll_map : ℕ → Option LineLoadDef) (ll_assign : ℕ → List LineLoadAssign)
    (active_ids : List ℕ) (target : ℕ → ℚ) : ℕ → ℚ :=
  active_ids.foldl (fun target lid =>
    let target1 :=
      match pl_map lid, pl_assign lid with
      | some pl, some n_idx => fun d =>
          target d + (if d = 2 * n_idx then pl.fx else 0) +
            (if d = 2 * n_idx + 1 then pl.fy else 0)
      | _, _ => target
    match ll_map lid with
    | some ll =>
      (ll_assign lid).foldl (fun tv la => fun d =>
        tv d +
          (if d = 2 * la.n1 then ll.fx * la.length / 6 else 0) +
          (if d = 2 * la.n1 + 1 then ll.fy * la.length / 6 else 0) +
          (if d = 2 * la.n2 then ll.fx * la.length / 6 else 0) +
          (if d = 2 * la.n2 + 1 then ll.fy * la.length / 6 else 0) +
          (if d = 2 * la.n3 then ll.fx * la.length * (2/3) else 0) +
          (if d = 2 * la.n3 + 1 then ll.fy * la.length * (2/3) else 0)) target1
    | none => target1) target

/-- The incremental external force of a phase, as computed by the source:
part A (gravity changes) and part B (stress release) accumulate into one
vector, then the load-vector difference between the current and parent
active load-id sets is added. -/
def delta_F_external (elems : List ElemProp) (parent_active current_active : List ℕ)
    (stress_state : ℕ → Fin 3 → Fin 3 → ℚ)
    (pl_map : ℕ → Option PointLoadDef) (pl_assign : ℕ → Option ℕ)
    (ll_map : ℕ → Option LineLoadDef) (ll_assign : ℕ → List LineLoadAssign)
    (current_load_ids parent_load_ids : List ℕ) : ℕ → ℚ :=
  let afterA := gravity_delta_pass elems parent_active current_active (fun _ => 0)
  let afterB := stress_release_pass elems parent_active current_active stress_state afterA
  let current_load_vectors :=
    apply_all_loads pl_map pl_assign ll_map ll_assign current_load_ids (fun _ => 0)
  let parent_load_vectors :=
    apply_all_loads pl_map pl_assign ll_map ll_assign parent_load_ids (fun _ => 0)
  fun d => afterB d + (current_load_vectors d - parent_load_vectors d)

/-- Modelled from the claim: Delta F as the sum of +F_g over newly
activated elements, -F_g over deactivated elements, the internal force of
the deactivated elements' committed stresses, and the difference of the
resolved load vectors. -/
def delta_F_spec (elems : List ElemProp) (parent_active current_active : List ℕ)
    (stress_state : ℕ → Fin 3 → Fin 3 → ℚ)
    (pl_map : ℕ → Option PointLoadDef) (pl_assign : ℕ → Option ℕ)
    (ll_map : ℕ → Option LineLoadDef) (ll_assign : ℕ → List LineLoadAssign)
    (current_load_ids parent_load_ids : List ℕ) : ℕ → ℚ :=
  fun d =>
    ((elems.filter fun ep =>
        decide (ep.polygon_id ∈ current_active ∧ ep.polygon_id ∉ parent_active)).map
      (fun ep => scatter_element ep.nodes ep.F_grav d)).sum -
    ((elems.filter fun ep =>
        decide (ep.polygon_id ∈ parent_active ∧ ep.polygon_id ∉ current_active)).map
      (fun ep => scatter_element ep.nodes ep.F_grav d)).sum +
    ((elems.filter fun ep =>
        decide (ep.polygon_id ∈ parent_active ∧ ep.polygon_id ∉ current_active)).map
      (fun ep => scatter_element ep.nodes (element_f_int ep (stress_state ep.id)) d)).sum +
    (apply_all_loads pl_map pl_assign ll_map ll_assign current_load_ids (fun _ => 0) d -
     apply_all_loads pl_map pl_assign ll_map ll_assign parent_load_ids (fun _ => 0) d)

theorem gravity_delta_pass_eq (parent_active current_active : List ℕ)
    (elems : List ElemProp) :
    ∀ (acc : ℕ → ℚ) (d : ℕ),
      gravity_delta_pass elems parent_active current_active acc d =
        acc d +
        ((elems.filter fun ep =>
            decide (ep.polygon_id ∈ current_active ∧ ep.polygon_id ∉ parent_active)).map
          (fun ep => scatter_element ep.nodes ep.F_grav d)).sum -
        ((elems.filter fun ep =>
            decide (ep.polygon_id ∈ parent_active ∧ ep.polygon_id ∉ current_active)).map
          (fun ep => scatter_element ep.nodes ep.F_grav d)).sum := by
  induction elems with
  | nil =>
    intro acc d
    simp [gravity_delta_pass]
  | cons ep tl ih =>
    intro acc d
    have hstep : gravity_delta_pass (ep :: tl) parent_active current_active acc =
        gravity_delta_pass tl parent_active current_active
          (gravity_step parent_active current_active acc ep) := rfl
    rw [hstep, ih]
    by_cases h1 : ep.polygon_id ∈ current_active ∧ ep.polygon_id ∉ parent_active
    · have h2 : ¬ (ep.polygon_id ∈ parent_active ∧ ep.polygon_id ∉ current_active) :=
        fun h => h.2 h1.1
      have hf1 : List.filter (fun ep => decide (ep.polygon_id ∈ current_active ∧ ep.polygon_id ∉ parent_active)) (ep :: tl) =
          ep :: List.filter (fun ep => decide (ep.polygon_id ∈ current_active ∧ ep.polygon_id ∉ parent_active)) tl := by
        rw [List.filter_cons, if_pos (decide_eq_true h1)]
      have hf2 : List.filter (fun ep => decide (ep.polygon_id ∈ parent_active ∧ ep.polygon_id ∉ current_active)) (ep :: tl) =
          List.filter (fun ep => decide (ep.polygon_id ∈ parent_active ∧ ep.polygon_id ∉ current_active)) tl := by
        rw [List.filter_cons, if_neg (by simpa using h2)]
      unfold gravity_step
      rw [if_pos h1, hf1, hf2]
      simp only [List.map_cons, List.sum_cons]
      ring
    · by_cases h2 : ep.polygon_id ∈ parent_active ∧ ep.polygon_id ∉ current_active
      · have hf1 : List.filter (fun ep => decide (ep.polygon_id ∈ current_active ∧ ep.polygon_id ∉ parent_active)) (ep :: tl) =
            List.filter (fun ep => decide (ep.polygon_id ∈ current_active ∧ ep.polygon_id ∉ parent_active)) tl := by
          rw [List.filter_cons, if_neg (by simpa using h1)]
        have hf2 : List.filter (fun ep => decide (ep.polygon_id ∈ parent_active ∧ ep.polygon_id ∉ current_active)) (ep :: tl) =
            ep :: List.filter (fun ep => decide (ep.polygon_id ∈ parent_active ∧ ep.polygon_id ∉ current_active)) tl := by
          rw [List.filter_cons, if_pos (decide_eq_true h2)]
        unfold gravity_step
        rw [if_neg h1, if_pos h2, hf1, hf2]
        simp only [List.map_cons, List.sum_cons]
        ring
      · have hf1 : List.filter (fun ep => decide (ep.polygon_id ∈ current_active ∧ ep.polygon_id ∉ parent_active)) (ep :: tl) =
            List.filter (fun ep => decide (ep.polygon_id ∈ current_active ∧ ep.polygon_id ∉ parent_active)) tl := by
          rw [List.filter_cons, if_neg (by simpa using h1)]
        have hf2 : List.filter (fun ep => decide (ep.polygon_id ∈ parent_active ∧ ep.polygon_id ∉ current_active)) (ep :: tl) =
            List.filter (fun ep => decide (ep.polygon_id ∈ parent_active ∧ ep.polygon_id ∉ current_active)) tl := by
          rw [List.filter_cons, if_neg (by simpa using h2)]
        unfold gravity_step
        rw [if_neg h1, if_neg h2, hf1, hf2]

theorem stress_release_pass_eq (parent_active current_active : List ℕ)
    (stress_state : ℕ → Fin 3 → Fin 3 → ℚ) (elems : List ElemProp) :
    ∀ (acc : ℕ → ℚ) (d : ℕ),
      stress_release_pass elems parent_active current_active stress_state acc d =
        acc d +
        ((elems.filter fun ep =>
            decide (ep.polygon_id ∈ parent_active ∧ ep.polygon_id ∉ current_active)).map
          (fun ep => scatter_element ep.nodes (element_f_int ep (stress_state ep.id)) d)).sum := by
  induction elems with
  | nil =>
    intro acc d
    simp [stress_release_pass]
  | cons ep tl ih =>
    intro acc d
    have hstep : stress_release_pass (ep :: tl) parent_active current_active stress_state acc =
        stress_release_pass tl parent_active current_active stress_state
          (release_step parent_active current_active stress_state acc ep) := rfl
    rw [hstep, ih]
    by_cases h2 : ep.polygon_id ∈ parent_active ∧ ep.polygon_id ∉ current_active
    · have hf2 : List.filter (fun ep => decide (ep.polygon_id ∈ parent_active ∧ ep.polygon_id ∉ current_active)) (ep :: tl) =
          ep :: List.filter (fun ep => decide (ep.polygon_id ∈ parent_active ∧ ep.polygon_id ∉ current_active)) tl := by
        rw [List.filter_cons, if_pos (decide_eq_true h2)]
      unfold release_step
      rw [if_pos h2, hf2]
      simp only [List.map_cons, List.sum_cons]
      ring
    · have hf2 : List.filter (fun ep => decide (ep.polygon_id ∈ parent_active ∧ ep.polygon_id ∉ current_active)) (ep :: tl) =
          List.filter (fun ep => decide (ep.polygon_id ∈ parent_active ∧ ep.polygon_id ∉ current_active)) tl := by
        rw [List.filter_cons, if_neg (by simpa using h2)]
      unfold release_step
      rw [if_neg h2, hf2]

/-- Claim C4: the incremental external force of a phase with a parent
equals the sum of +F_g over elements whose polygon became active, -F_g over
elements whose polygon became inactive, the assembled internal force
(B^T sigma integrated over the Gauss points) of each deactivated element's
committed stresses, and the difference of the resolved point- and line-load
vectors between the current and parent active load-id sets. -/
theorem C4_delta_F_decomposition (elems : List ElemProp)
    (parent_active current_active : List ℕ)
    (stress_state : ℕ → Fin 3 → Fin 3 → ℚ)
    (pl_map : ℕ → Option PointLoadDef) (pl_assign : ℕ → Option ℕ)
    (ll_map : ℕ → Option LineLoadDef) (ll_assign : ℕ → List LineLoadAssign)
    (current_load_ids parent_load_ids : List ℕ) :
    delta_F_external elems parent_active current_active stress_state
        pl_map pl_assign ll_map ll_assign current_load_ids parent_load_ids =
      delta_F_spec elems parent_active current_active stress_state
        pl_map pl_assign ll_map ll_assign current_load_ids parent_load_ids := by
  funext d
  unfold delta_F_external delta_F_spec
  rw [stress_release_pass_eq, gravity_delta_pass_eq]
  ring

end TerraSim
